import Mathlib

/-!
Verification of `internal/commands/validate.go` (qbec): the concurrent
validation orchestrator.  The Go code is shallowly embedded: the output
writer becomes the list of writes performed, the mutex-guarded statistics
become a record threaded through explicit state passing, and the bounded
parallel executor becomes a fold that follows its external contract
(invoke the task on every item exactly once, return the first propagated
error).  Go error values compared by identity are modelled as an inductive
type whose constructors stand for distinct error values.
-/

/-- Modelled from the spec: Go error values of the schema client
(`remote.ErrSchemaNotFound` and any other lookup error) live outside the
source under study.  Go compares errors by identity (`==`); constructor
identity models that: `schemaNotFound` is the single sentinel value, and
`other msg` is any distinct error value carrying the text printed by `%v`
(which may even coincide textually with the sentinel's message). -/
inductive GoError where
  | schemaNotFound
  | other (msg : String)
deriving DecidableEq, Repr

/-- The text produced when formatting the error with `%v`. -/
def GoError.message : GoError → String
  | .schemaNotFound => "schema not found"
  | .other m => m

/-- `k8s.io/apimachinery` group/version/kind type discriminator. -/
structure GroupVersionKind where
  group : String
  version : String
  kind : String
deriving DecidableEq, Repr

/-- A candidate object: display identity, type discriminator, and the
unstructured content handed to the structural validator. -/
structure K8sLocalObject where
  name : String
  gvk : GroupVersionKind
  data : String
deriving DecidableEq, Repr

/-- `obj.ToUnstructured()`: the content seen by the structural validator. -/
def K8sLocalObject.ToUnstructured (o : K8sLocalObject) : String := o.data

/-- `remote.Validator`: structural validation yielding violation messages. -/
def RemoteValidator := String → List String

/-- `validateClient`: the remote interface needed for validate operations. -/
structure ValidateClient where
  DisplayName : K8sLocalObject → String
  ValidatorFor : GroupVersionKind → Except GoError RemoteValidator

def escGreen : String := "\x1b[32m"
def escRed : String := "\x1b[31m"
def escDim : String := "\x1b[2m"
def escReset : String := "\x1b[0m"

def unicodeCheck : String := "✔"
def unicodeX : String := "✘"
def unicodeQuestion : String := "?"

/-- `validatorStats`: the lock-guarded aggregate; the mutex disappears in
the sequential embedding, mutation becomes functional update. -/
structure validatorStats where
  ValidCount : Nat := 0
  Unknown : List String := []
  Invalid : List String := []
  Errors : List String := []
deriving DecidableEq, Repr

def validatorStats.valid (v : validatorStats) (_s : String) : validatorStats :=
  { v with ValidCount := v.ValidCount + 1 }

def validatorStats.invalid (v : validatorStats) (s : String) : validatorStats :=
  { v with Invalid := v.Invalid ++ [s] }

def validatorStats.unknown (v : validatorStats) (s : String) : validatorStats :=
  { v with Unknown := v.Unknown ++ [s] }

def validatorStats.errors (v : validatorStats) (s : String) : validatorStats :=
  { v with Errors := v.Errors ++ [s] }

/-- `validator`: the per-run state.  `w` is the serialized output sink,
modelled as the list of atomic writes performed so far (the `lockWriter`
guarantees each `Fprintf` is one atomic write). -/
structure validator where
  w : List String
  client : ValidateClient
  stats : validatorStats
  red : String
  green : String
  dim : String
  reset : String

/-- `validator.validate`: classify one object and record exactly one
outcome, mirroring the Go source line by line. -/
def validator.validate (v : validator) (obj : K8sLocalObject) :
    validator × Option GoError :=
  let name := v.client.DisplayName obj
  match v.client.ValidatorFor obj.gvk with
  | .error err =>
    if err = GoError.schemaNotFound then
      ({ v with
          w := v.w ++ [v.dim ++ unicodeQuestion ++ " " ++ name ++
            ": no schema found, cannot validate" ++ v.reset ++ "\n"],
          stats := v.stats.unknown name }, none)
    else
      ({ v with
          w := v.w ++ [v.red ++ unicodeX ++ " " ++ name ++
            ": schema fetch error " ++ err.message ++ v.reset ++ "\n"],
          stats := v.stats.errors name }, some err)
  | .ok sch =>
    let errs := sch obj.ToUnstructured
    if errs = [] then
      ({ v with
          w := v.w ++ [v.green ++ unicodeCheck ++ " " ++ name ++
            " is valid" ++ v.reset ++ "\n"],
          stats := v.stats.valid name }, none)
    else
      ({ v with
          w := v.w ++ [v.red ++ unicodeX ++ " " ++ name ++
            " is invalid\n\t- " ++ String.intercalate "\n\t- " errs ++
            v.reset ++ "\n"],
          stats := v.stats.invalid name }, none)

/-- Modelled from the spec: the bounded task executor `runInParallel` is
part of this repository but outside the source under study.  Per its
external contract it invokes the task on every item exactly once, does not
return before all invocations have returned, and yields the first
propagated error or nil; the concurrency bound itself has no further
observable effect in the sequential embedding. -/
def runInParallel (items : List α) (task : σ → α → σ × Option GoError)
    (s : σ) (_parallel : Nat) : σ × Option GoError :=
  match items with
  | [] => (s, none)
  | x :: xs =>
    let r := task s x
    let rest := runInParallel xs task r.1 _parallel
    (rest.1, r.2.orElse fun _ => rest.2)

/-- Modelled from the spec: `printStats` is defined outside the source
under study; per the spec it emits one final human-readable summary line
with the counts of valid/unknown/invalid/errored objects. -/
def printStats (stats : validatorStats) : String :=
  "valid: " ++ toString stats.ValidCount ++
  ", unknown: " ++ toString stats.Unknown.length ++
  ", invalid: " ++ toString stats.Invalid.length ++
  ", errors: " ++ toString stats.Errors.length ++ "\n"

/-- `validateObjects`: run the validator over all objects under the
bounded executor, print the summary, and reduce to the job result.  The
returned pair is (final run state, returned Go error). -/
def validateObjects (objs : List K8sLocalObject) (client : ValidateClient)
    (parallel : Nat) (colors : Bool) : validator × Option GoError :=
  let v : validator :=
    { w := [], client := client, stats := {},
      green := if colors then escGreen else "",
      red := if colors then escRed else "",
      dim := if colors then escDim else "",
      reset := if colors then escReset else "" }
  let r := runInParallel objs validator.validate v parallel
  let v2 := { r.1 with w := r.1.w ++ [printStats r.1.stats] }
  (v2,
    match r.2 with
    | some e => some e
    | none =>
      if r.1.stats.Invalid.length > 0 then
        some (GoError.other
          (toString r.1.stats.Invalid.length ++ " invalid objects found"))
      else none)

/-! ## Derived per-object classification (specification side) -/

/-- The per-object outcome taxonomy of the spec. -/
inductive Outcome where
  | valid
  | invalid (reasons : List String)
  | unknown
  | lookupErr (e : GoError)
deriving DecidableEq, Repr

/-- Classification of one object, derived from the client alone. -/
def outcomeOf (c : ValidateClient) (o : K8sLocalObject) : Outcome :=
  match c.ValidatorFor o.gvk with
  | .error e => if e = GoError.schemaNotFound then .unknown else .lookupErr e
  | .ok sch =>
    let errs := sch o.ToUnstructured
    if errs = [] then .valid else .invalid errs

def Outcome.isValidO : Outcome → Bool
  | .valid => true
  | _ => false

def Outcome.isInvalidO : Outcome → Bool
  | .invalid _ => true
  | _ => false

def Outcome.isUnknownO : Outcome → Bool
  | .unknown => true
  | _ => false

def Outcome.isErrO : Outcome → Bool
  | .lookupErr _ => true
  | _ => false

/-- The error `validate` propagates for one object combining client data. -/
def errOf (c : ValidateClient) (o : K8sLocalObject) : Option GoError :=
  match c.ValidatorFor o.gvk with
  | .error e => if e = GoError.schemaNotFound then none else some e
  | .ok _ => none

/-- The first propagated error over a list of objects. -/
def firstErr (c : ValidateClient) : List K8sLocalObject → Option GoError
  | [] => none
  | o :: os => (errOf c o).orElse fun _ => firstErr c os

/-- Record one outcome into the statistics. -/
def recordOutcome (name : String) (oc : Outcome) (s : validatorStats) :
    validatorStats :=
  match oc with
  | .valid => s.valid name
  | .invalid _ => s.invalid name
  | .unknown => s.unknown name
  | .lookupErr _ => s.errors name

/-- The statistics produced by a sequential sweep over the objects. -/
def runStats (c : ValidateClient) (objs : List K8sLocalObject)
    (s : validatorStats) : validatorStats :=
  match objs with
  | [] => s
  | o :: os => runStats c os (recordOutcome (c.DisplayName o) (outcomeOf c o) s)

/-- The single report line written for one object. -/
def reportLine (c : ValidateClient) (red green dim reset : String)
    (o : K8sLocalObject) : String :=
  let name := c.DisplayName o
  match outcomeOf c o with
  | .valid => green ++ unicodeCheck ++ " " ++ name ++ " is valid" ++ reset ++ "\n"
  | .invalid errs => red ++ unicodeX ++ " " ++ name ++ " is invalid\n\t- " ++
      String.intercalate "\n\t- " errs ++ reset ++ "\n"
  | .unknown => dim ++ unicodeQuestion ++ " " ++ name ++
      ": no schema found, cannot validate" ++ reset ++ "\n"
  | .lookupErr e => red ++ unicodeX ++ " " ++ name ++
      ": schema fetch error " ++ e.message ++ reset ++ "\n"

/-- Sum of all four statistics buckets. -/
def statsTotal (s : validatorStats) : Nat :=
  s.ValidCount + s.Unknown.length + s.Invalid.length + s.Errors.length

/-- The names recorded as invalid over a run, derived from the client. -/
def invalidNamesOf (c : ValidateClient) (objs : List K8sLocalObject) :
    List String :=
  (objs.filter fun o => (outcomeOf c o).isInvalidO).map c.DisplayName

/-- The names recorded as unknown over a run. -/
def unknownNamesOf (c : ValidateClient) (objs : List K8sLocalObject) :
    List String :=
  (objs.filter fun o => (outcomeOf c o).isUnknownO).map c.DisplayName

/-- The names recorded as errored over a run. -/
def errorNamesOf (c : ValidateClient) (objs : List K8sLocalObject) :
    List String :=
  (objs.filter fun o => (outcomeOf c o).isErrO).map c.DisplayName

/-- The number of valid objects over a run. -/
def validCountOf (c : ValidateClient) (objs : List K8sLocalObject) : Nat :=
  objs.countP fun o => (outcomeOf c o).isValidO

/-! ## CLI layer: `doValidate` -/

/-- Modelled from the spec: `model.Baseline`, the reserved baseline
environment name that may not be validated, lives outside the source
under study. -/
def Baseline : String := "_"

/-- Modelled from the spec: the filter parameters produced by
`addFilterParams` are opaque to the validate command; the Object Source is
handed them unchanged. -/
structure filterParams where
  includes : List String := []
  excludes : List String := []

/-- The errors `doValidate` can return: a usage error from
`newUsageError` (modelled from the spec, the helper is outside the source
under study) or an ordinary Go error. -/
inductive cmdError where
  | usage (msg : String)
  | goErr (e : GoError)

/-- `validateCommandConfig`: the collaborators of `doValidate`.  The repo
functions `filteredObjects` and the client provider are modelled from the
spec as injected capabilities (the Object Source supplies the already
filtered objects for an environment). -/
structure validateCommandConfig where
  parallel : Nat
  colorize : Bool
  filterFunc : Except GoError filterParams
  filteredObjects : String → filterParams → Except GoError (List K8sLocalObject)
  clientProvider : String → Except GoError ValidateClient

/-- `doValidate`: argument checks, then object loading, client creation
and the validation run.  The success value carries the run result pair so
the run state stays observable; the Go function returns only the error
component. -/
def doValidate (args : List String) (config : validateCommandConfig) :
    Except cmdError (validator × Option GoError) :=
  if args.length ≠ 1 then .error (.usage "exactly one environment required")
  else
    let env := args.headD ""
    if env = Baseline then
      .error (.usage "cannot validate baseline environment, use a real environment")
    else
      match config.filterFunc with
      | .error e => .error (.goErr e)
      | .ok fp =>
        match config.filteredObjects env fp with
        | .error e => .error (.goErr e)
        | .ok objects =>
          match config.clientProvider env with
          | .error e => .error (.goErr e)
          | .ok client =>
            .ok (validateObjects objects client config.parallel config.colorize)

/-! ## Concrete sample data used by the witnesses -/

def gvkDeploy : GroupVersionKind := ⟨"apps", "v1", "Deployment"⟩
def gvkCustom : GroupVersionKind := ⟨"x.example.com", "v1", "Custom"⟩
def gvkFlaky : GroupVersionKind := ⟨"y.example.com", "v1", "Flaky"⟩

/-- A structural validator for the sample Deployment schema. -/
def deploySchema : RemoteValidator := fun u =>
  if u = "bad" then ["spec.replicas: must be positive", "metadata.name: required"]
  else []

/-- A sample schema client: Deployments validate structurally, the Custom
kind has no schema (the sentinel), and the Flaky kind fails its lookup
with a distinct error value whose text coincides with the sentinel's. -/
def sampleClient : ValidateClient where
  DisplayName o := o.gvk.kind ++ "/" ++ o.name
  ValidatorFor gvk :=
    if gvk.kind = "Deployment" then .ok deploySchema
    else if gvk.kind = "Custom" then .error GoError.schemaNotFound
    else .error (GoError.other "schema not found")

def objA : K8sLocalObject := ⟨"a", gvkDeploy, "good"⟩
def objB : K8sLocalObject := ⟨"b", gvkDeploy, "bad"⟩
def objC : K8sLocalObject := ⟨"c", gvkCustom, "good"⟩
def objD : K8sLocalObject := ⟨"d", gvkFlaky, "good"⟩

/-- A fresh run state over the sample client, colors off. -/
def v0 : validator :=
  { w := [], client := sampleClient, stats := {},
    red := "", green := "", dim := "", reset := "" }

/-- A sample command configuration. -/
def cfg0 : validateCommandConfig :=
  { parallel := 5, colorize := false,
    filterFunc := .ok {},
    filteredObjects := fun _ _ => .ok [objA, objC],
    clientProvider := fun _ => .ok sampleClient }

/-! ## Characterization of `validate` and the run -/

/-- One `validate` call: the report line, the recorded outcome and the
propagated error are each determined by the derived classification. -/
theorem validate_def (v : validator) (o : K8sLocalObject) :
    v.validate o =
      ({ v with
          w := v.w ++ [reportLine v.client v.red v.green v.dim v.reset o],
          stats := recordOutcome (v.client.DisplayName o)
            (outcomeOf v.client o) v.stats },
        errOf v.client o) := by
  unfold validator.validate reportLine recordOutcome outcomeOf errOf
  cases h : v.client.ValidatorFor o.gvk with
  | error e =>
    by_cases he : e = GoError.schemaNotFound <;> simp [he]
  | ok sch =>
    by_cases hs : sch o.ToUnstructured = [] <;> simp [hs]

/-- The whole parallel run: output is one report line per object in
processing order, statistics are the fold of the per-object outcomes, and
the captured error is the first propagated one. -/
theorem run_def (p : Nat) : ∀ (objs : List K8sLocalObject) (v : validator),
    runInParallel objs validator.validate v p =
      ({ v with
          w := v.w ++ objs.map (reportLine v.client v.red v.green v.dim v.reset),
          stats := runStats v.client objs v.stats },
        firstErr v.client objs) := by
  intro objs
  induction objs with
  | nil => intro v; simp [runInParallel, runStats, firstErr]
  | cons o os ih =>
    intro v
    simp only [runInParallel, validate_def, ih, runStats, firstErr, List.map_cons]
    simp [List.append_assoc]

theorem recordOutcome_Invalid (n : String) (oc : Outcome) (s : validatorStats) :
    (recordOutcome n oc s).Invalid =
      s.Invalid ++ if oc.isInvalidO then [n] else [] := by
  cases oc <;> simp [recordOutcome, validatorStats.valid, validatorStats.invalid,
    validatorStats.unknown, validatorStats.errors, Outcome.isInvalidO]

theorem recordOutcome_Unknown (n : String) (oc : Outcome) (s : validatorStats) :
    (recordOutcome n oc s).Unknown =
      s.Unknown ++ if oc.isUnknownO then [n] else [] := by
  cases oc <;> simp [recordOutcome, validatorStats.valid, validatorStats.invalid,
    validatorStats.unknown, validatorStats.errors, Outcome.isUnknownO]

theorem recordOutcome_Errors (n : String) (oc : Outcome) (s : validatorStats) :
    (recordOutcome n oc s).Errors =
      s.Errors ++ if oc.isErrO then [n] else [] := by
  cases oc <;> simp [recordOutcome, validatorStats.valid, validatorStats.invalid,
    validatorStats.unknown, validatorStats.errors, Outcome.isErrO]

theorem recordOutcome_ValidCount (n : String) (oc : Outcome) (s : validatorStats) :
    (recordOutcome n oc s).ValidCount =
      s.ValidCount + if oc.isValidO then 1 else 0 := by
  cases oc <;> simp [recordOutcome, validatorStats.valid, validatorStats.invalid,
    validatorStats.unknown, validatorStats.errors, Outcome.isValidO]

theorem runStats_Invalid (c : ValidateClient) :
    ∀ (objs : List K8sLocalObject) (s : validatorStats),
    (runStats c objs s).Invalid = s.Invalid ++ invalidNamesOf c objs := by
  intro objs
  induction objs with
  | nil => intro s; simp [runStats, invalidNamesOf]
  | cons o os ih =>
    intro s
    simp only [runStats, ih, recordOutcome_Invalid, invalidNamesOf,
      List.filter_cons]
    by_cases h : (outcomeOf c o).isInvalidO <;>
      simp [h, invalidNamesOf, List.append_assoc]

theorem runStats_Unknown (c : ValidateClient) :
    ∀ (objs : List K8sLocalObject) (s : validatorStats),
    (runStats c objs s).Unknown = s.Unknown ++ unknownNamesOf c objs := by
  intro objs
  induction objs with
  | nil => intro s; simp [runStats, unknownNamesOf]
  | cons o os ih =>
    intro s
    simp only [runStats, ih, recordOutcome_Unknown, unknownNamesOf,
      List.filter_cons]
    by_cases h : (outcomeOf c o).isUnknownO <;>
      simp [h, unknownNamesOf, List.append_assoc]

theorem runStats_Errors (c : ValidateClient) :
    ∀ (objs : List K8sLocalObject) (s : validatorStats),
    (runStats c objs s).Errors = s.Errors ++ errorNamesOf c objs := by
  intro objs
  induction objs with
  | nil => intro s; simp [runStats, errorNamesOf]
  | cons o os ih =>
    intro s
    simp only [runStats, ih, recordOutcome_Errors, errorNamesOf,
      List.filter_cons]
    by_cases h : (outcomeOf c o).isErrO <;>
      simp [h, errorNamesOf, List.append_assoc]

theorem runStats_ValidCount (c : ValidateClient) :
    ∀ (objs : List K8sLocalObject) (s : validatorStats),
    (runStats c objs s).ValidCount = s.ValidCount + validCountOf c objs := by
  intro objs
  induction objs with
  | nil => intro s; simp [runStats, validCountOf]
  | cons o os ih =>
    intro s
    simp only [runStats, ih, recordOutcome_ValidCount, validCountOf,
      List.countP_cons]
    by_cases h : (outcomeOf c o).isValidO
    · simp [h, validCountOf]
      omega
    · simp [h, validCountOf]

theorem recordOutcome_total (n : String) (oc : Outcome) (s : validatorStats) :
    statsTotal (recordOutcome n oc s) = statsTotal s + 1 := by
  cases oc <;> simp [statsTotal, recordOutcome, validatorStats.valid,
    validatorStats.invalid, validatorStats.unknown, validatorStats.errors] <;>
    omega

theorem runStats_total (c : ValidateClient) :
    ∀ (objs : List K8sLocalObject) (s : validatorStats),
    statsTotal (runStats c objs s) = statsTotal s + objs.length := by
  intro objs
  induction objs with
  | nil => intro s; simp [runStats]
  | cons o os ih =>
    intro s
    simp only [runStats, ih, recordOutcome_total, List.length_cons]
    omega

/-- `validateObjects` fully characterized: the report lines, the final
summary line, the statistics and the reduced job error. -/
theorem validateObjects_def (objs : List K8sLocalObject)
    (client : ValidateClient) (p : Nat) (colors : Bool) :
    validateObjects objs client p colors =
      ({ w := objs.map (reportLine client (if colors then escRed else "")
            (if colors then escGreen else "") (if colors then escDim else "")
            (if colors then escReset else "")) ++
            [printStats (runStats client objs {})],
         client := client,
         stats := runStats client objs {},
         red := if colors then escRed else "",
         green := if colors then escGreen else "",
         dim := if colors then escDim else "",
         reset := if colors then escReset else "" },
       match firstErr client objs with
       | some e => some e
       | none =>
         if (runStats client objs {}).Invalid.length > 0 then
           some (GoError.other (toString (runStats client objs {}).Invalid.length
             ++ " invalid objects found"))
         else none) := by
  unfold validateObjects
  simp [run_def]

/-! ## Claim theorems -/

/-- Claim C3: for every object whose schema lookup fails with the schema-not-found
sentinel, `validate` records the display name into the `Unknown` list, writes
one dimmed report line with the question-mark glyph, and returns nil. -/
theorem validate_schemaNotFound (v : validator) (o : K8sLocalObject)
    (h : v.client.ValidatorFor o.gvk = .error GoError.schemaNotFound) :
    v.validate o =
      ({ v with
          w := v.w ++ [v.dim ++ unicodeQuestion ++ " " ++ v.client.DisplayName o ++
            ": no schema found, cannot validate" ++ v.reset ++ "\n"],
          stats := { v.stats with
            Unknown := v.stats.Unknown ++ [v.client.DisplayName o] } },
        none) := by
  simp [validator.validate, h, validatorStats.unknown]

/-- Witness for C3 at a concrete client and object. -/
theorem validate_schemaNotFound_witness :
    v0.validate objC =
      ({ v0 with
          w := v0.w ++ [v0.dim ++ unicodeQuestion ++ " " ++ v0.client.DisplayName objC ++
            ": no schema found, cannot validate" ++ v0.reset ++ "\n"],
          stats := { v0.stats with
            Unknown := v0.stats.Unknown ++ [v0.client.DisplayName objC] } },
        none) :=
  validate_schemaNotFound v0 objC rfl

/-- Claim C4: for every object whose schema lookup fails with any error other than
the schema-not-found sentinel, `validate` records the display name into the
`Errors` list, writes one error-colored line with the x glyph containing the
failure message, and returns that error; moreover this is the only path on
which `validate` returns a non-nil error. -/
theorem validate_lookupError (v : validator) (o : K8sLocalObject) (e : GoError)
    (h : v.client.ValidatorFor o.gvk = .error e)
    (hne : e ≠ GoError.schemaNotFound) :
    v.validate o =
      ({ v with
          w := v.w ++ [v.red ++ unicodeX ++ " " ++ v.client.DisplayName o ++
            ": schema fetch error " ++ e.message ++ v.reset ++ "\n"],
          stats := { v.stats with
            Errors := v.stats.Errors ++ [v.client.DisplayName o] } },
        some e) ∧
    ∀ (v' : validator) (o' : K8sLocalObject),
      (v'.validate o').2 ≠ none →
        ∃ e', v'.client.ValidatorFor o'.gvk = .error e' ∧
          e' ≠ GoError.schemaNotFound ∧ (v'.validate o').2 = some e' := by
  constructor
  · simp [validator.validate, h, hne, validatorStats.errors]
  · intro v' o' h2
    have hsnd : (v'.validate o').2 = errOf v'.client o' := by rw [validate_def]
    rw [hsnd] at h2 ⊢
    cases h' : v'.client.ValidatorFor o'.gvk with
    | error e' =>
      by_cases he : e' = GoError.schemaNotFound
      · rw [errOf, h'] at h2; simp [he] at h2
      · exact ⟨e', rfl, he, by rw [errOf, h']; simp [he]⟩
    | ok sch => rw [errOf, h'] at h2; simp at h2

/-- Witness for C4: a lookup error distinct from the sentinel. -/
theorem validate_lookupError_witness :
    v0.validate objD =
      ({ v0 with
          w := v0.w ++ [v0.red ++ unicodeX ++ " " ++ v0.client.DisplayName objD ++
            ": schema fetch error " ++ (GoError.other "schema not found").message ++
            v0.reset ++ "\n"],
          stats := { v0.stats with
            Errors := v0.stats.Errors ++ [v0.client.DisplayName objD] } },
        some (GoError.other "schema not found")) :=
  (validate_lookupError v0 objD (GoError.other "schema not found") rfl
    (by decide)).1

/-- Claim C5: for every object whose lookup succeeds and whose structural
validation yields at least one violation, `validate` appends the display
name to `Invalid`, writes one red x-glyph line listing every violation
message one per line and indented, and returns nil. -/
theorem validate_invalid_recorded (v : validator) (o : K8sLocalObject)
    (sch : RemoteValidator) (errs : List String)
    (h : v.client.ValidatorFor o.gvk = .ok sch)
    (he : sch o.ToUnstructured = errs)
    (hne : errs ≠ []) :
    v.validate o =
      ({ v with
          w := v.w ++ [v.red ++ unicodeX ++ " " ++ v.client.DisplayName o ++
            " is invalid\n\t- " ++ String.intercalate "\n\t- " errs ++
            v.reset ++ "\n"],
          stats := { v.stats with
            Invalid := v.stats.Invalid ++ [v.client.DisplayName o] } },
        none) := by
  subst he
  simp [validator.validate, h, hne, validatorStats.invalid]

/-- Witness for C5 at an object with two violations. -/
theorem validate_invalid_recorded_witness :
    v0.validate objB =
      ({ v0 with
          w := v0.w ++ [v0.red ++ unicodeX ++ " " ++ v0.client.DisplayName objB ++
            " is invalid\n\t- " ++ String.intercalate "\n\t- "
              ["spec.replicas: must be positive", "metadata.name: required"] ++
            v0.reset ++ "\n"],
          stats := { v0.stats with
            Invalid := v0.stats.Invalid ++ [v0.client.DisplayName objB] } },
        none) :=
  validate_invalid_recorded v0 objB deploySchema
    ["spec.replicas: must be positive", "metadata.name: required"]
    rfl rfl (by decide)

/-- Claim C10: a failed lookup is classified Unknown only when the error is the
sentinel value itself (identity comparison); any other error value, even one
whose text coincides with the sentinel's, is recorded into `Errors` and
propagated. -/
theorem validate_sentinel_identity (v : validator) (o : K8sLocalObject)
    (e : GoError) (h : v.client.ValidatorFor o.gvk = .error e) :
    (e = GoError.schemaNotFound →
      (v.validate o).2 = none ∧
      (v.validate o).1.stats.Unknown = v.stats.Unknown ++ [v.client.DisplayName o] ∧
      (v.validate o).1.stats.Errors = v.stats.Errors) ∧
    (e ≠ GoError.schemaNotFound →
      (v.validate o).2 = some e ∧
      (v.validate o).1.stats.Errors = v.stats.Errors ++ [v.client.DisplayName o] ∧
      (v.validate o).1.stats.Unknown = v.stats.Unknown) := by
  constructor
  · intro he
    subst he
    simp [validator.validate, h, validatorStats.unknown]
  · intro hne
    simp [validator.validate, h, hne, validatorStats.errors]

/-- Witness for C10: an error value textually equal to the sentinel's
message is still classified as an error and propagated. -/
theorem validate_sentinel_identity_witness :
    (v0.validate objD).2 = some (GoError.other "schema not found") ∧
    (v0.validate objD).1.stats.Errors = v0.stats.Errors ++ [v0.client.DisplayName objD] ∧
    (v0.validate objD).1.stats.Unknown = v0.stats.Unknown :=
  (validate_sentinel_identity v0 objD (GoError.other "schema not found") rfl).2
    (by decide)

/-- Claim C6: every `validate` invocation writes exactly one report line and
records exactly one contribution to exactly one of the four statistics
buckets, on every execution path. -/
theorem validate_one_line_one_bucket (v : validator) (o : K8sLocalObject) :
    (v.validate o).1.w.length = v.w.length + 1 ∧
    (((v.validate o).1.stats.ValidCount = v.stats.ValidCount + 1 ∧
        (v.validate o).1.stats.Unknown = v.stats.Unknown ∧
        (v.validate o).1.stats.Invalid = v.stats.Invalid ∧
        (v.validate o).1.stats.Errors = v.stats.Errors) ∨
      ((v.validate o).1.stats.ValidCount = v.stats.ValidCount ∧
        (v.validate o).1.stats.Unknown = v.stats.Unknown ++ [v.client.DisplayName o] ∧
        (v.validate o).1.stats.Invalid = v.stats.Invalid ∧
        (v.validate o).1.stats.Errors = v.stats.Errors) ∨
      ((v.validate o).1.stats.ValidCount = v.stats.ValidCount ∧
        (v.validate o).1.stats.Unknown = v.stats.Unknown ∧
        (v.validate o).1.stats.Invalid = v.stats.Invalid ++ [v.client.DisplayName o] ∧
        (v.validate o).1.stats.Errors = v.stats.Errors) ∨
      ((v.validate o).1.stats.ValidCount = v.stats.ValidCount ∧
        (v.validate o).1.stats.Unknown = v.stats.Unknown ∧
        (v.validate o).1.stats.Invalid = v.stats.Invalid ∧
        (v.validate o).1.stats.Errors = v.stats.Errors ++ [v.client.DisplayName o])) := by
  rw [validate_def]
  refine ⟨by simp, ?_⟩
  cases hoc : outcomeOf v.client o <;>
    simp [hoc, recordOutcome, validatorStats.valid, validatorStats.invalid,
      validatorStats.unknown, validatorStats.errors]

/-- Claim C1: the job result of `validateObjects` is reduced in precedence order:
a captured propagated error wins, else a non-empty invalid list yields an
error reporting the invalid count, else nil. -/
theorem validateObjects_job_reduction (objs : List K8sLocalObject)
    (client : ValidateClient) (p : Nat) (colors : Bool) :
    (validateObjects objs client p colors).2 =
      match firstErr client objs with
      | some e => some e
      | none =>
        if invalidNamesOf client objs = [] then none
        else some (GoError.other
          (toString (invalidNamesOf client objs).length ++
            " invalid objects found")) := by
  rw [validateObjects_def]
  cases hfe : firstErr client objs with
  | some e => rfl
  | none =>
    simp only [runStats_Invalid, List.nil_append]
    by_cases h : invalidNamesOf client objs = []
    · have h0 : ({} : validatorStats).Invalid = [] := rfl
      simp [h, h0]
    · have hl : 0 < (invalidNamesOf client objs).length :=
        List.length_pos.mpr h
      have h0 : ({} : validatorStats).Invalid = [] := rfl
      simp [h, h0, hl]

/-- Claim C2: after a run of `validateObjects`, the four statistics buckets
partition the object set: the valid count plus the lengths of the unknown,
invalid and error name lists equals the number of objects. -/
theorem validateObjects_stats_partition (objs : List K8sLocalObject)
    (client : ValidateClient) (p : Nat) (colors : Bool) :
    (validateObjects objs client p colors).1.stats.ValidCount +
      (validateObjects objs client p colors).1.stats.Unknown.length +
      (validateObjects objs client p colors).1.stats.Invalid.length +
      (validateObjects objs client p colors).1.stats.Errors.length =
      objs.length := by
  rw [validateObjects_def]
  show (runStats client objs {}).ValidCount +
      (runStats client objs {}).Unknown.length +
      (runStats client objs {}).Invalid.length +
      (runStats client objs {}).Errors.length = objs.length
  have h := runStats_total client objs {}
  simp only [statsTotal] at h
  simpa using h

/-- Claim C7: `validateObjects` always writes one report line per object followed
by the final statistics summary, whatever the outcome mix. -/
theorem validateObjects_always_summary (objs : List K8sLocalObject)
    (client : ValidateClient) (p : Nat) (colors : Bool) :
    (validateObjects objs client p colors).1.w =
      objs.map (reportLine client (if colors then escRed else "")
        (if colors then escGreen else "") (if colors then escDim else "")
        (if colors then escReset else "")) ++
      [printStats (validateObjects objs client p colors).1.stats] ∧
    (validateObjects objs client p colors).1.w.length = objs.length + 1 := by
  rw [validateObjects_def]
  simp

/-- Claim C9: for one fixed client, any two processing orders of the same object
set (the only observable effect of differing concurrency limits) produce the
same valid count and the same multisets of unknown, invalid and error
names. -/
theorem validateObjects_perm_stats (objs objs' : List K8sLocalObject)
    (client : ValidateClient) (p p' : Nat) (colors colors' : Bool)
    (hp : objs.Perm objs') :
    (validateObjects objs client p colors).1.stats.ValidCount =
      (validateObjects objs' client p' colors').1.stats.ValidCount ∧
    ((validateObjects objs client p colors).1.stats.Unknown).Perm
      ((validateObjects objs' client p' colors').1.stats.Unknown) ∧
    ((validateObjects objs client p colors).1.stats.Invalid).Perm
      ((validateObjects objs' client p' colors').1.stats.Invalid) ∧
    ((validateObjects objs client p colors).1.stats.Errors).Perm
      ((validateObjects objs' client p' colors').1.stats.Errors) := by
  rw [validateObjects_def, validateObjects_def]
  refine ⟨?_, ?_, ?_, ?_⟩
  · show (runStats client objs {}).ValidCount =
      (runStats client objs' {}).ValidCount
    rw [runStats_ValidCount, runStats_ValidCount]
    simp [validCountOf, hp.countP_eq]
  · show ((runStats client objs {}).Unknown).Perm
      ((runStats client objs' {}).Unknown)
    rw [runStats_Unknown, runStats_Unknown]
    simpa [unknownNamesOf] using (hp.filter _).map client.DisplayName
  · show ((runStats client objs {}).Invalid).Perm
      ((runStats client objs' {}).Invalid)
    rw [runStats_Invalid, runStats_Invalid]
    simpa [invalidNamesOf] using (hp.filter _).map client.DisplayName
  · show ((runStats client objs {}).Errors).Perm
      ((runStats client objs' {}).Errors)
    rw [runStats_Errors, runStats_Errors]
    simpa [errorNamesOf] using (hp.filter _).map client.DisplayName

/-- Witness for C9: a two-object set processed in both orders under
different concurrency limits. -/
theorem validateObjects_perm_stats_witness :
    (validateObjects [objA, objB] sampleClient 1 false).1.stats.ValidCount =
      (validateObjects [objB, objA] sampleClient 5 false).1.stats.ValidCount ∧
    ((validateObjects [objA, objB] sampleClient 1 false).1.stats.Unknown).Perm
      ((validateObjects [objB, objA] sampleClient 5 false).1.stats.Unknown) ∧
    ((validateObjects [objA, objB] sampleClient 1 false).1.stats.Invalid).Perm
      ((validateObjects [objB, objA] sampleClient 5 false).1.stats.Invalid) ∧
    ((validateObjects [objA, objB] sampleClient 1 false).1.stats.Errors).Perm
      ((validateObjects [objB, objA] sampleClient 5 false).1.stats.Errors) :=
  validateObjects_perm_stats [objA, objB] [objB, objA] sampleClient 1 5
    false false (by decide)

/-- Claim C8: `doValidate` fails with a usage error, independently of the
configured collaborators, when the argument list has more or fewer than one
entry or names the reserved baseline environment; otherwise it loads the
filtered objects, creates the client and runs `validateObjects`. -/
theorem doValidate_usage_checks (args : List String) (env : String)
    (config config' : validateCommandConfig) :
    (args.length ≠ 1 →
      doValidate args config = .error (.usage "exactly one environment required") ∧
      doValidate args config = doValidate args config') ∧
    (args = [Baseline] →
      doValidate args config =
        .error (.usage "cannot validate baseline environment, use a real environment") ∧
      doValidate args config = doValidate args config') ∧
    (args = [env] → env ≠ Baseline →
      doValidate args config =
        match config.filterFunc with
        | .error e => .error (.goErr e)
        | .ok fp =>
          match config.filteredObjects env fp with
          | .error e => .error (.goErr e)
          | .ok objects =>
            match config.clientProvider env with
            | .error e => .error (.goErr e)
            | .ok client =>
              .ok (validateObjects objects client config.parallel
                config.colorize)) := by
  refine ⟨?_, ?_, ?_⟩
  · intro h
    simp [doValidate, h]
  · intro h
    subst h
    simp [doValidate]
  · intro h hne
    subst h
    simp [doValidate, hne]

/-- Witness for C8: the two usage failures and one run that proceeds. -/
theorem doValidate_usage_checks_witness :
    doValidate [] cfg0 = .error (.usage "exactly one environment required") ∧
    doValidate [Baseline] cfg0 =
      .error (.usage "cannot validate baseline environment, use a real environment") ∧
    doValidate ["dev"] cfg0 =
      .ok (validateObjects [objA, objC] sampleClient cfg0.parallel
        cfg0.colorize) :=
  ⟨((doValidate_usage_checks [] "dev" cfg0 cfg0).1 (by decide)).1,
   ((doValidate_usage_checks [Baseline] "dev" cfg0 cfg0).2.1 rfl).1,
   (doValidate_usage_checks ["dev"] "dev" cfg0 cfg0).2.2 rfl (by decide)⟩
